import Mathlib

/-!
Verification of the page-scraper service (`src/services/genericScraper.ts`).

This file gives a shallow embedding of the scraper's pure logic and of its
stateful browser pool, and proves the specification claims about them:

* fuzzy Cloudflare-challenge detection (`fuzzyMatchesPattern`,
  `calculateSimilarity` / `getEditDistance`, `detectCloudflareChallenge`);
* the `BrowserPool` state machine (`initialize`, `getBrowser`,
  `replenishPool` modelled as interleavable steps);
* the `scrapeGeneric` orchestration (prepare / navigate / settle /
  challenge-wait / extract / error classification / cleanup), modelled as a
  function from an injected page environment to a result and a trace of
  effects;
* scale extraction (`matchFrac` models the regex `1\/\d+`).

JavaScript semantics notes, used throughout:
* string truthiness: the empty string is falsy, every other string truthy;
* number truthiness: `0` is falsy (hence `config.waitTime || 1000`);
* `String.prototype.includes` is a plain substring test;
* the similarity comparison `(L - d) / L >= t` for thresholds `t = 0.8 /
  0.7` is modelled exactly over the rationals as `(L - d) * 10 >= t10 * L`.
  For these inputs the double-precision comparison agrees with the exact
  rational one: the quantities compared are rationals with small
  denominators, so either they are exactly equal (and both orderings hold)
  or they differ by far more than the floating-point rounding error.
-/

set_option maxRecDepth 40000

namespace PageScraper

/-! ### JS string helpers

These are written over `List Char` with structural recursion only, so that
every claim instance evaluates by kernel reduction (`decide` / `rfl`);
the core `String.toLower` / `String.trim` / `String.map` are defined by
well-founded recursion over byte positions and do not reduce. -/

/-- Substring test: JS `hay.includes(pat)`. -/
def strIncludes (hay pat : String) : Bool :=
  hay.toList.tails.any fun t => pat.toList.isPrefixOf t

/-- JS `toLowerCase()` (ASCII range; every pattern and input in the claims
is unaffected by locale-specific lowercasing). -/
def jsToLower (s : String) : String :=
  String.mk (s.toList.map Char.toLower)

/-- Drop leading and trailing whitespace: JS `trim()`. -/
def listTrim (l : List Char) : List Char :=
  ((l.dropWhile Char.isWhitespace).reverse.dropWhile Char.isWhitespace).reverse

/-- JS `trim()` on strings. -/
def jsTrim (s : String) : String :=
  String.mk (listTrim s.toList)

/-- Collapse every run of whitespace into a single space: JS
`replace(/\s+/g, ' ')`.  The flag records whether the previous character
was whitespace (i.e. we are inside a run that already emitted its space). -/
def collapseWs : List Char → Bool → List Char
  | [], _ => []
  | c :: rest, prevWs =>
    if c.isWhitespace then
      if prevWs then collapseWs rest true
      else ' ' :: collapseWs rest true
    else c :: collapseWs rest false

/-- JS `text.toLowerCase().trim().replace(/\s+/g, ' ')` (the normalization
step of `fuzzyMatchesPattern`). -/
def jsNormalize (s : String) : String :=
  String.mk (collapseWs (listTrim ((jsToLower s).toList)) false)

/-! ### Edit distance (`getEditDistance`)

The source builds the full Levenshtein matrix `matrix[j][i]` (`j` ranges
over `str2`, `i` over `str1`), row by row.  We model the same dynamic
program with a rolling row: `levNextRow c2 s1 diag left prev` computes the
entries `matrix[j][1..]` of the next row, where `diag = matrix[j-1][i-1]`,
`left = matrix[j][i-1]` and `prev` is the tail `matrix[j-1][i..]` of the
previous row. -/

def levNextRow (c2 : Char) : List Char → Nat → Nat → List Nat → List Nat
  | [], _, _, _ => []
  | c1 :: rest, diag, left, prev =>
    let up := prev.headD 0
    let cur := if c1 = c2 then diag else min (min (diag + 1) (left + 1)) (up + 1)
    cur :: levNextRow c2 rest up cur prev.tail

/-- Fold the rows of the matrix over `str2`; `j` is the index of the row
just produced, `prev` its entries. -/
def levRows (s1 : List Char) : List Char → List Nat → Nat → List Nat
  | [], prev, _ => prev
  | c2 :: rest, prev, j =>
    let row := (j + 1) :: levNextRow c2 s1 (prev.headD 0) (j + 1) prev.tail
    levRows s1 rest row (j + 1)

/-- `getEditDistance(str1, str2) = matrix[str2.length][str1.length]`. -/
def getEditDistance (s1 s2 : List Char) : Nat :=
  (levRows s1 s2 (List.range (s1.length + 1)) 0).getLastD 0

/-! ### Similarity and fuzzy matching -/

/-- `calculateSimilarity(str1, str2) >= tnum / 10`, computed exactly.
The source picks the longer of the two strings (ties go to `str2`),
returns `1.0` when it is empty, and otherwise compares
`(longer.length - editDistance) / longer.length` with the threshold. -/
def similarityGe (str1 str2 : List Char) (tnum : Nat) : Bool :=
  let longer := if str1.length > str2.length then str1 else str2
  let shorter := if str1.length > str2.length then str2 else str1
  if longer.length = 0 then decide (tnum ≤ 10)
  else decide (tnum * longer.length ≤ (longer.length - getEditDistance longer shorter) * 10)

/-- `fuzzyMatchesPattern(text, pattern, threshold)` with the threshold given
as `tnum / 10` (the source only ever passes `0.8` and `0.7`).  JS `!text`
and `!pattern` are the empty-string tests. -/
def fuzzyMatchesPattern (text pattern : String) (tnum : Nat) : Bool :=
  if text = "" || pattern = "" then false
  else
    let normalizedText := jsNormalize text
    let normalizedPattern := jsNormalize pattern
    if strIncludes normalizedText normalizedPattern then true
    else similarityGe normalizedText.toList normalizedPattern.toList tnum

/-! ### Cloudflare challenge detection -/

/-- Caller-supplied detection patterns (`ScrapeConfig.cloudflareDetection`).
Both fields are optional in the TypeScript interface; the detector reads
them with `|| []`. -/
structure CloudflareDetection where
  titleIncludes : Option (List String) := none
  bodyIncludes : Option (List String) := none
deriving DecidableEq

/-- The built-in title patterns appended to the caller's `titleIncludes`. -/
def builtinTitlePatterns : List String :=
  ["Just a moment",
   "Please wait",
   "Checking your browser",
   "DDoS protection",
   "Security check",
   "Verifying you are human",
   "Challenge in progress",
   "Browser check",
   "Un moment",
   "Bitte warten",
   "Espere por favor",
   "Attendere prego",
   "しばらくお待ちください",
   "Just a sec",
   "Hold on",
   "Wait a moment",
   "One moment please",
   "Cloudflare",
   "CF-RAY",
   "Ray ID"]

/-- The built-in body patterns appended to the caller's `bodyIncludes`. -/
def builtinBodyPatterns : List String :=
  ["Just a moment",
   "Please wait while we verify",
   "Checking your browser before accessing",
   "This process is automatic",
   "Your browser will redirect automatically",
   "Please enable JavaScript and cookies",
   "Please turn JavaScript on and reload the page",
   "DDoS protection by Cloudflare",
   "Performance & security by Cloudflare",
   "Your IP",
   "Ray ID",
   "Cloudflare Ray ID",
   "verify you are a human",
   "verify that you are not a robot",
   "prove you are human",
   "human verification",
   "bot detection",
   "automated requests",
   "Please enable cookies",
   "JavaScript required",
   "Please enable JavaScript",
   "browser does not support JavaScript",
   "cookies disabled",
   "Security service",
   "Website is under attack mode",
   "High security",
   "Browser integrity check",
   "Challenge page",
   "Access denied",
   "Forbidden",
   "blocked by security policy",
   "Por favor espere",
   "Veuillez patienter",
   "Bitte warten Sie",
   "お待ちください",
   "请等待"]

/-- `detectCloudflareChallenge(title, bodyText, patterns)`: the caller's
lists are merged in front of the built-in library; every title pattern is
tried at threshold `0.8`, then every body pattern at `0.7`.  The source
returns on the first match of either loop, which is the disjunction of the
two `any`s. -/
def detectCloudflareChallenge (title bodyText : String) (patterns : CloudflareDetection) : Bool :=
  let expandedTitlePatterns := patterns.titleIncludes.getD [] ++ builtinTitlePatterns
  let expandedBodyPatterns := patterns.bodyIncludes.getD [] ++ builtinBodyPatterns
  expandedTitlePatterns.any (fun p => fuzzyMatchesPattern title p 8) ||
    expandedBodyPatterns.any (fun p => fuzzyMatchesPattern bodyText p 7)

/-! ### Scrape configuration and scraped data -/

/-- `ScrapeConfig` (all fields optional in the TypeScript interface). -/
structure ScrapeConfig where
  imageSelector : Option String := none
  manufacturerSelector : Option String := none
  nameSelector : Option String := none
  scaleSelector : Option String := none
  cloudflareDetection : Option CloudflareDetection := none
  waitTime : Option Nat := none
  userAgent : Option String := none
deriving DecidableEq

/-- `ScrapedData`: the four extracted fields plus the `error` field used by
the non-critical error recovery path. -/
structure ScrapedData where
  imageUrl : Option String := none
  manufacturer : Option String := none
  name : Option String := none
  scale : Option String := none
  error : Option String := none
deriving DecidableEq

/-- JS `v || dflt` for an optional string: `undefined` and `""` are falsy. -/
def jsOrString (v : Option String) (dflt : String) : String :=
  match v with
  | none => dflt
  | some s => if s = "" then dflt else s

/-- `const waitTime = config.waitTime || 1000`: JS `||` treats both
`undefined` and `0` as falsy, so a configured `0` falls back to `1000`. -/
def effectiveWaitTime (config : ScrapeConfig) : Nat :=
  match config.waitTime with
  | none => 1000
  | some w => if w = 0 then 1000 else w

def defaultUserAgent : String :=
  "Mozilla/5.0 (Windows NT 10.0; Win64; x64) AppleWebKit/537.36 (KHTML, like Gecko) Chrome/127.0.0.0 Safari/537.36"

/-! ### Scale extraction (`scaleText.match(/1\/\d+/)`)

The regex literal in the source is `1\/\d+`: the character `'1'`, a slash,
then one or more digits.  `fracHere` tests whether the regex matches at
the start of the list (taking the greedy `\d+`); `matchFrac` scans for
the first position at which it matches, exactly like `String.prototype.match`
with a non-global, non-anchored regex. -/

def fracHere : List Char → Option (List Char)
  | c1 :: c2 :: d :: rest =>
    if c1 = '1' ∧ c2 = '/' ∧ d.isDigit = true then
      some ('1' :: '/' :: d :: rest.takeWhile Char.isDigit)
    else none
  | _ => none

def matchFrac : List Char → Option (List Char)
  | [] => none
  | c :: rest =>
    match fracHere (c :: rest) with
    | some m => some m
    | none => matchFrac rest

/-- An independent (suffix-scan) formulation of "the regex `1\/\d+` occurs
somewhere in the list", used to state the scale-extraction claims. -/
def fracHereTest (t : List Char) : Bool :=
  match t with
  | c1 :: c2 :: d :: _ => decide (c1 = '1' ∧ c2 = '/' ∧ d.isDigit = true)
  | _ => false

def fracPresentB (l : List Char) : Bool :=
  l.tails.any fracHereTest

/-- The scale post-processing applied to a non-empty `textContent`:
trim, then take the regex match if any, else the trimmed text verbatim. -/
def scaleFromText (t : String) : String :=
  let scaleText := jsTrim t
  match matchFrac scaleText.toList with
  | some m => String.mk m
  | none => scaleText

/-- The scale branch of the in-page extraction: runs only when a scale
selector is configured; the element's `textContent` must be present and
truthy (non-empty). -/
def extractScaleField (scaleSelector : Option String) (scaleText : Option String) :
    Option String :=
  match scaleSelector with
  | none => none
  | some _ =>
    match scaleText with
    | none => none
    | some t => if t = "" then none else some (scaleFromText t)

/-! ### Error classification (`catch` block of `scrapeGeneric`) -/

/-- The critical-error allow-list, verbatim from the source. -/
def criticalErrors : List String :=
  ["timeout",
   "disconnected",
   "Extraction failed",
   "Navigation failed",
   "ERR_NETWORK_CHANGED",
   "ERR_NAME_NOT_RESOLVED",
   "ERR_CONNECTION_REFUSED",
   "ERR_CERT_AUTHORITY_INVALID",
   "ERR_DNS_MALFORMED_RESPONSE",
   "Failed to launch the browser process",
   "Failed to create page",
   "Protocol error: Browser closed",
   "Invalid viewport dimensions",
   "Invalid user agent string",
   "Invalid header value",
   "Evaluation failed: Timeout",
   "ReferenceError",
   "Cannot read property",
   "Invalid selector",
   "Process out of memory",
   "Page crashed",
   "Browser became unresponsive",
   "Network interruption",
   "ERR_PROXY_CONNECTION_FAILED",
   "DNS over HTTPS error",
   "DOMException",
   "HTTP 503",
   "HTTP 502",
   "Rate limiting",
   "Maintenance mode",
   "Isolated failure",
   "Unknown argument",
   "ENOSPC",
   "HTTP 404",
   "HTTP 500",
   "HTTP 429"]

/-- `criticalErrors.some(t => error.message.includes(t) || error.message === t)`. -/
def isCriticalError (msg : String) : Bool :=
  criticalErrors.any fun errorType => strIncludes msg errorType || msg == errorType

/-! ### The challenge wait (`page.waitForFunction`)

The in-page wait condition receives a pattern list and reports completion
once neither the lowercased title nor the lowercased body text contains
any pattern.  The source always passes the fixed list
`['Just a moment']` (the local `challengePatterns`), not the caller's
configured patterns, with a 10 s timeout. -/

def challengeWaitDone (patterns : List String) (title bodyText : String) : Bool :=
  !(patterns.any fun pattern =>
      strIncludes (jsToLower title) (jsToLower pattern) ||
        strIncludes (jsToLower bodyText) (jsToLower pattern))

/-- The `challengePatterns` local of `scrapeGeneric`. -/
def scrapeChallengeWaitPatterns : List String := ["Just a moment"]

/-- The `{ timeout: 10000 }` option of the challenge wait. -/
def challengeWaitTimeoutMs : Nat := 10000

/-! ### `scrapeGeneric` as a step machine over an injected environment

`PageEnv` describes the behavior of the acquired browser and page during
one call: which awaited operations fail (with what error message), what
the page's title and body text are, and what the final in-page extraction
evaluates to.  `scrapeAttempt` is the body of the `try` block;
`scrapeCatchStep` is the `catch` block's classification; the `finally`
block contributes the close events of `scrapeFinallyEvents`.  The trace
lists the awaited operations in the order the source performs them, so
that cleanup and challenge-wait claims can be stated over it. -/

inductive ScrapeEvent where
  | acquire
  | newPage
  | setViewport
  | setUserAgent (ua : String)
  | setHeaders
  | goto (url : String)
  | sleep (ms : Nat)
  | readTitle
  | readBody
  | waitForChallenge (patterns : List String) (timeoutMs : Nat)
  | extract
  | pageClose (err : Option String)
  | browserClose (err : Option String)
deriving DecidableEq

structure PageEnv where
  acquireErr : Option String := none
  newPageErr : Option String := none
  setViewportErr : Option String := none
  setUserAgentErr : Option String := none
  setHeadersErr : Option String := none
  gotoErr : Option String := none
  titleErr : Option String := none
  bodyErr : Option String := none
  pageTitle : String := ""
  bodyText : String := ""
  extractResult : Except String ScrapedData := Except.ok {}
  pageCloseErr : Option String := none
  browserCloseErr : Option String := none

/-- The `try` block of `scrapeGeneric`: acquire, open page, configure,
navigate, settle, optional challenge check/wait, extract.  Each event is
recorded when its operation is started; a failing operation aborts the
block with its error message (to be classified by the `catch`). -/
def scrapeAttempt (url : String) (config : ScrapeConfig) (env : PageEnv) :
    Except String ScrapedData × List ScrapeEvent :=
  match env.acquireErr with
  | some e => (Except.error e, [ScrapeEvent.acquire])
  | none =>
  match env.newPageErr with
  | some e => (Except.error e, [ScrapeEvent.acquire, ScrapeEvent.newPage])
  | none =>
  match env.setViewportErr with
  | some e => (Except.error e, [ScrapeEvent.acquire, ScrapeEvent.newPage, ScrapeEvent.setViewport])
  | none =>
  let userAgent := jsOrString config.userAgent defaultUserAgent
  match env.setUserAgentErr with
  | some e => (Except.error e,
      [ScrapeEvent.acquire, ScrapeEvent.newPage, ScrapeEvent.setViewport,
       ScrapeEvent.setUserAgent userAgent])
  | none =>
  match env.setHeadersErr with
  | some e => (Except.error e,
      [ScrapeEvent.acquire, ScrapeEvent.newPage, ScrapeEvent.setViewport,
       ScrapeEvent.setUserAgent userAgent, ScrapeEvent.setHeaders])
  | none =>
  match env.gotoErr with
  | some e => (Except.error e,
      [ScrapeEvent.acquire, ScrapeEvent.newPage, ScrapeEvent.setViewport,
       ScrapeEvent.setUserAgent userAgent, ScrapeEvent.setHeaders, ScrapeEvent.goto url])
  | none =>
  let pre := [ScrapeEvent.acquire, ScrapeEvent.newPage, ScrapeEvent.setViewport,
      ScrapeEvent.setUserAgent userAgent, ScrapeEvent.setHeaders, ScrapeEvent.goto url,
      ScrapeEvent.sleep (effectiveWaitTime config)]
  match config.cloudflareDetection with
  | none =>
    (match env.extractResult with
     | Except.error e => (Except.error e, pre ++ [ScrapeEvent.extract])
     | Except.ok d => (Except.ok d, pre ++ [ScrapeEvent.extract]))
  | some det =>
    match env.titleErr with
    | some e => (Except.error e, pre ++ [ScrapeEvent.readTitle])
    | none =>
    match env.bodyErr with
    | some e => (Except.error e, pre ++ [ScrapeEvent.readTitle, ScrapeEvent.readBody])
    | none =>
    let challengeDetected := detectCloudflareChallenge env.pageTitle env.bodyText det
    let chEvents :=
      if challengeDetected then
        [ScrapeEvent.waitForChallenge scrapeChallengeWaitPatterns challengeWaitTimeoutMs,
         ScrapeEvent.sleep 1500]
      else []
    (match env.extractResult with
     | Except.error e =>
         (Except.error e, pre ++ [ScrapeEvent.readTitle, ScrapeEvent.readBody] ++ chEvents
           ++ [ScrapeEvent.extract])
     | Except.ok d =>
         (Except.ok d, pre ++ [ScrapeEvent.readTitle, ScrapeEvent.readBody] ++ chEvents
           ++ [ScrapeEvent.extract]))

/-- The `catch` block: critical errors are rethrown, everything else
degrades to `{ error: error.message }`. -/
def scrapeCatchStep (r : Except String ScrapedData) : Except String ScrapedData :=
  match r with
  | Except.ok d => Except.ok d
  | Except.error msg =>
    if isCriticalError msg then Except.error msg else Except.ok { error := some msg }

/-- The `finally` block: close the page if one was opened (`page` is
non-null exactly when `newPage` succeeded) and the browser if one was
acquired; a rejection of either `close()` is caught and only logged, so
the events record the injected close error but nothing propagates. -/
def scrapeFinallyEvents (env : PageEnv) : List ScrapeEvent :=
  (if env.acquireErr = none ∧ env.newPageErr = none then
      [ScrapeEvent.pageClose env.pageCloseErr]
    else []) ++
  (if env.acquireErr = none then [ScrapeEvent.browserClose env.browserCloseErr] else [])

/-- One full `scrapeGeneric` call: try body, then `catch` classification,
then the `finally` cleanup events. -/
def scrapeGenericRun (url : String) (config : ScrapeConfig) (env : PageEnv) :
    Except String ScrapedData × List ScrapeEvent :=
  let a := scrapeAttempt url config env
  (scrapeCatchStep a.1, a.2 ++ scrapeFinallyEvents env)

/-! ### BrowserPool

Process-wide singleton state of the pool.  Browser handles are modelled as
`Nat` (their identity plays no role in any claim); `browsers.shift()` pops
the head and `browsers.push(b)` appends. -/

namespace BrowserPool

def POOL_SIZE : Nat := 3

def MAX_EMERGENCY_BROWSERS : Nat := 5

structure PoolState where
  browsers : List Nat := []
  emergencyCount : Nat := 0
  isInitialized : Bool := false
  replenishLock : Bool := false
deriving DecidableEq

/-- The state before any pool method has run. -/
def freshPoolState : PoolState := {}

/-- An initialized pool that is empty with its emergency budget used up. -/
def exhaustedPoolState : PoolState :=
  { browsers := [], emergencyCount := 5, isInitialized := true, replenishLock := false }

/-- One iteration of the `initialize()` loop: a successful launch pushes a
handle, a failed one is only logged. -/
def initLaunchStep (launchOk : Nat → Bool) (acc : PoolState) (i : Nat) : PoolState :=
  if launchOk i then { acc with browsers := acc.browsers ++ [0] } else acc

/-- `initialize()`: a no-op when already initialized; otherwise launches
`POOL_SIZE` browsers sequentially, pushing each successful launch and
merely logging each failure, then sets `isInitialized`.  `launchOk i`
tells whether the `i`-th launch of the loop succeeds. -/
def initPool (launchOk : Nat → Bool) (s : PoolState) : PoolState :=
  if s.isInitialized then s
  else { (List.range POOL_SIZE).foldl (initLaunchStep launchOk) s with isInitialized := true }

/-- The handle returned by an emergency `puppeteer.launch`. -/
def emergencyHandle : Nat := 0

def poolExhaustedMsg : String := "[BROWSER POOL] Browser pool exhausted"

def poolMaxEmergencyMsg : String := "[BROWSER POOL] Max emergency browser attempts exhausted"

inductive PoolEvent where
  | launchAttempt (i : Nat)
  | backoff (ms : Nat)
  | replenishScheduled
deriving DecidableEq

/-- The event pattern of `n` consecutive failed emergency launches starting
at attempt `i`: each failed launch is followed by exactly one 250 ms
backoff before the next attempt (or before the exhaustion throw). -/
def failTrace (i : Nat) : Nat → List PoolEvent
  | 0 => []
  | n + 1 => PoolEvent.launchAttempt i :: PoolEvent.backoff 250 :: failTrace (i + 1) n

/-- The body of `getBrowser()` on an initialized pool.  `launchOk i` is the
outcome of the `i`-th emergency `puppeteer.launch` of this call.  On a
successful pop the fire-and-forget `replenishPool()` is recorded as an
event (its interleaved state effects are the `PoolStep` relation below).
On an empty pool: if the emergency budget is left, increment the count and
attempt a launch; a failed launch backs off 250 ms, then either throws
(budget now exhausted) or retries by re-entering `getBrowser`. -/
def getBrowserGo (launchOk : Nat → Bool) (i : Nat) (s : PoolState) :
    Except String Nat × PoolState × List PoolEvent :=
  match s.browsers with
  | b :: rest =>
    (Except.ok b, { s with browsers := rest }, [PoolEvent.replenishScheduled])
  | [] =>
    if s.emergencyCount < MAX_EMERGENCY_BROWSERS then
      if launchOk i then
        (Except.ok emergencyHandle, { s with emergencyCount := s.emergencyCount + 1 },
         [PoolEvent.launchAttempt i])
      else
        if MAX_EMERGENCY_BROWSERS ≤ s.emergencyCount + 1 then
          (Except.error poolMaxEmergencyMsg, { s with emergencyCount := s.emergencyCount + 1 },
           [PoolEvent.launchAttempt i, PoolEvent.backoff 250])
        else
          let r := getBrowserGo launchOk (i + 1) { s with emergencyCount := s.emergencyCount + 1 }
          (r.1, r.2.1, PoolEvent.launchAttempt i :: PoolEvent.backoff 250 :: r.2.2)
    else
      (Except.error poolExhaustedMsg, s, [])
termination_by MAX_EMERGENCY_BROWSERS - s.emergencyCount
decreasing_by
  simp only [MAX_EMERGENCY_BROWSERS] at *
  omega

/-- `getBrowser()`: ensures the pool is initialized, then runs the body.
(The recursive retry re-enters `getBrowser` in the source; the repeated
initialization check is a no-op there because `isInitialized` is already
set, so the recursion lives in `getBrowserGo`.) -/
def getBrowser (initOk launchOk : Nat → Bool) (s : PoolState) :
    Except String Nat × PoolState × List PoolEvent :=
  getBrowserGo launchOk 0 (if s.isInitialized then s else initPool initOk s)

/-- The interleavable effects of `acquire()` / `replenishPool()` on the
shared pool state, at the granularity the single-threaded cooperative
runtime guarantees:

* `acquireHit` — `browsers.shift()` succeeds;
* `emergencyLaunch` — the empty-pool path increments `emergencyCount`
  (the launch itself returns the handle directly and never touches
  `browsers`);
* `replenishBegin` — `replenishPool`'s guard: the lock is clear and the
  pool is below target; checked and set with no intervening `await`;
* `replenishSuccess` — the launched handle is pushed, `emergencyCount`
  decremented (floored at zero) and the lock released, all between two
  suspension points;
* `replenishFailure` — the launch failed; after the backoff the lock is
  released without a push. -/
inductive PoolStep : PoolState → PoolState → Prop
  | acquireHit (s : PoolState) (b : Nat) (rest : List Nat) (h : s.browsers = b :: rest) :
      PoolStep s { s with browsers := rest }
  | emergencyLaunch (s : PoolState) (h1 : s.browsers = [])
      (h2 : s.emergencyCount < MAX_EMERGENCY_BROWSERS) :
      PoolStep s { s with emergencyCount := s.emergencyCount + 1 }
  | replenishBegin (s : PoolState) (h1 : s.replenishLock = false)
      (h2 : s.browsers.length < POOL_SIZE) :
      PoolStep s { s with replenishLock := true }
  | replenishSuccess (s : PoolState) (h : s.replenishLock = true) :
      PoolStep s { s with browsers := s.browsers ++ [0], emergencyCount := s.emergencyCount - 1, replenishLock := false }
  | replenishFailure (s : PoolState) (h : s.replenishLock = true) :
      PoolStep s { s with replenishLock := false }

/-- The inductive invariant for the pool-size bound: the pool never holds
more than `POOL_SIZE` handles, and while a replenishment is in flight
(lock held) it holds strictly fewer — the guard of `replenishBegin`
checked this before the lock was taken, and only the lock holder pushes. -/
def PoolInv (s : PoolState) : Prop :=
  s.browsers.length ≤ POOL_SIZE ∧ (s.replenishLock = true → s.browsers.length < POOL_SIZE)

end BrowserPool

/-! ### Concrete values used in claim theorems and witnesses -/

/-- The detection configuration used by the repository's enhanced-detection
tests: `'Just a moment'` as both a title and a body pattern. -/
def cfJustMoment : CloudflareDetection :=
  { titleIncludes := some ["Just a moment"], bodyIncludes := some ["Just a moment"] }

/-- A caller whose only challenge pattern is the built-in-independent
`'Security check'` title pattern. -/
def cfSecurityCheck : CloudflareDetection :=
  { titleIncludes := some ["Security check"], bodyIncludes := some [] }

def cfgSecurityCheck : ScrapeConfig := { cloudflareDetection := some cfSecurityCheck }

/-- A page that is still showing a `Security check` interstitial. -/
def envSecurityCheck : PageEnv :=
  { pageTitle := "Security check", bodyText := "Security check" }

/-- An environment whose in-page extraction rejects with the given message. -/
def envExtractError (msg : String) : PageEnv := { extractResult := Except.error msg }

/-- The pattern list the CLAIM says the challenge wait polls with: the
caller's own `titleIncludes`/`bodyIncludes` patterns. -/
def claimedWaitPatterns (det : CloudflareDetection) : List String :=
  det.titleIncludes.getD [] ++ det.bodyIncludes.getD []

/-! ## Claim theorems -/

/-- C7: challenge detection returns `false` on an empty title and body, and
on the fragment inputs title `"Just"`, body `"moment"`, against the
caller pattern `"Just a moment"` merged with the built-in library:
no merged pattern is accepted by the substring branch or by the similarity
thresholds (0.8 title / 0.7 body). -/
theorem challenge_detection_rejects_empty_and_fragments :
    detectCloudflareChallenge "" "" cfJustMoment = false ∧
    detectCloudflareChallenge "Just" "moment" cfJustMoment = false := by
  decide

/-- C6 counterexample: with pattern `"Just a moment"` configured and a body
matching no pattern (the empty body matches nothing), detection on the typo
title `"Jst a moment..."` returns `false`, not `true` as the claim states:
the title similarity is `11/15 < 0.8`, so the title branch rejects. -/
theorem fuzzy_typo_title_alone_not_detected :
    detectCloudflareChallenge "Jst a moment..." "" cfJustMoment = false ∧
    ((cfJustMoment.bodyIncludes.getD [] ++ builtinBodyPatterns).any
        (fun p => fuzzyMatchesPattern "" p 7)) = false := by
  decide

/-- C6 (amended): with pattern `"Just a moment"` configured, detection of
the typo'd challenge text `"Jst a moment..."` (as produced by the
repository's own typo test, where title and body both carry the text)
returns `true` — via the fuzzy similarity branch at the 0.7 body
threshold, the 0.8 title branch having rejected every merged title
pattern — and detection of `"Welcome to our website"` returns `false`. -/
theorem fuzzy_typo_detected_and_different_text_rejected :
    detectCloudflareChallenge "Jst a moment..." "Jst a moment..." cfJustMoment = true ∧
    ((cfJustMoment.titleIncludes.getD [] ++ builtinTitlePatterns).any
        (fun p => fuzzyMatchesPattern "Jst a moment..." p 8)) = false ∧
    fuzzyMatchesPattern "Jst a moment..." "Just a moment" 7 = true ∧
    detectCloudflareChallenge "Welcome to our website" "Welcome to our website"
      cfJustMoment = false := by
  decide

/-- C9: `detectCloudflareChallenge` is monotone in the caller-supplied
pattern lists: enlarging `titleIncludes`/`bodyIncludes` can never suppress
a detection, because the caller's lists are merged with the fixed built-in
library and the detector existentially searches the merged lists. -/
theorem detect_monotone_in_caller_patterns :
    ∀ (title bodyText : String) (P Q : CloudflareDetection),
      (∀ p, p ∈ P.titleIncludes.getD [] → p ∈ Q.titleIncludes.getD []) →
      (∀ p, p ∈ P.bodyIncludes.getD [] → p ∈ Q.bodyIncludes.getD []) →
      detectCloudflareChallenge title bodyText P = true →
      detectCloudflareChallenge title bodyText Q = true := by
  intro title bodyText P Q hT hB h
  simp only [detectCloudflareChallenge, Bool.or_eq_true, List.any_eq_true,
    List.mem_append] at h ⊢
  rcases h with ⟨p, hp, hm⟩ | ⟨p, hp, hm⟩
  · exact Or.inl ⟨p, hp.imp (hT p) id, hm⟩
  · exact Or.inr ⟨p, hp.imp (hB p) id, hm⟩

theorem detect_monotone_in_caller_patterns_witness :
    detectCloudflareChallenge "Just a moment" "" {} = true :=
  detect_monotone_in_caller_patterns "Just a moment" "" {} {}
    (fun _ h => h) (fun _ h => h) (by decide)

/-- C10: a configured `waitTime` of `0` (or a missing one — the falsy
values of the `Nat`-valued field) is treated as unset: the settle delay is
`config.waitTime` only when it is nonzero and `1000` otherwise, so no
caller can request a zero-length settle. -/
theorem wait_time_zero_treated_as_unset :
    (∀ config : ScrapeConfig, config.waitTime = none ∨ config.waitTime = some 0 →
      effectiveWaitTime config = 1000) ∧
    (∀ (config : ScrapeConfig) (w : Nat), config.waitTime = some w → w ≠ 0 →
      effectiveWaitTime config = w) ∧
    (∀ config : ScrapeConfig, effectiveWaitTime config ≠ 0) := by
  refine ⟨?_, ?_, ?_⟩
  · rintro config (h | h) <;> simp [effectiveWaitTime, h]
  · intro config w h hw
    simp [effectiveWaitTime, h, hw]
  · intro config
    unfold effectiveWaitTime
    cases config.waitTime with
    | none => simp
    | some w => by_cases hw : w = 0 <;> simp [hw]

theorem wait_time_zero_treated_as_unset_witness :
    effectiveWaitTime { waitTime := some 0 } = 1000 ∧
    effectiveWaitTime { waitTime := some 250 } = 250 :=
  ⟨wait_time_zero_treated_as_unset.1 { waitTime := some 0 } (Or.inr rfl),
   wait_time_zero_treated_as_unset.2.1 { waitTime := some 250 } 250 rfl (by decide)⟩

/-- C4: every error thrown inside a `scrapeGeneric` call is classified
against the critical-error allow-list: a critical message propagates as a
thrown failure and any other message resolves to `{ error: message }`.
In particular an extraction error `"Some random error"` resolves to
`{ error: "Some random error" }` while `"Evaluation failed: Timeout"` is
rethrown. -/
theorem scrape_error_classification :
    (∀ (url : String) (config : ScrapeConfig) (env : PageEnv) (msg : String),
        (scrapeAttempt url config env).1 = Except.error msg →
        (scrapeGenericRun url config env).1 =
          (if isCriticalError msg then Except.error msg
           else Except.ok { error := some msg })) ∧
    (scrapeGenericRun "https://example.com" {} (envExtractError "Some random error")).1 =
      Except.ok { error := some "Some random error" } ∧
    (scrapeGenericRun "https://example.com" {} (envExtractError "Evaluation failed: Timeout")).1 =
      Except.error "Evaluation failed: Timeout" := by
  refine ⟨?_, ?_, ?_⟩
  · intro url config env msg h
    simp only [scrapeGenericRun]
    rw [h]
    rfl
  · rfl
  · rfl

theorem scrape_error_classification_witness :
    (scrapeGenericRun "https://example.com" {} (envExtractError "Some random error")).1 =
      Except.ok { error := some "Some random error" } := by
  have h := scrape_error_classification.1 "https://example.com" {}
    (envExtractError "Some random error") "Some random error" rfl
  rw [h]
  rfl

/-- C5: the cleanup of `scrapeGeneric` always runs: whatever failures the
environment injects at any stage, the page close is traced whenever a page
was opened and the browser close whenever a browser was acquired, and the
call's outcome is independent of whether either close itself fails. -/
theorem scrape_cleanup_always_runs :
    ∀ (url : String) (config : ScrapeConfig) (env : PageEnv),
      ((env.acquireErr = none ∧ env.newPageErr = none) →
        ScrapeEvent.pageClose env.pageCloseErr ∈ (scrapeGenericRun url config env).2) ∧
      (env.acquireErr = none →
        ScrapeEvent.browserClose env.browserCloseErr ∈ (scrapeGenericRun url config env).2) ∧
      (∀ pe be : Option String,
        (scrapeGenericRun url config
            { env with pageCloseErr := pe, browserCloseErr := be }).1 =
          (scrapeGenericRun url config env).1) := by
  intro url config env
  refine ⟨?_, ?_, ?_⟩
  · intro h
    simp only [scrapeGenericRun, scrapeFinallyEvents, h.1, h.2]
    simp
  · intro h
    by_cases h2 : env.newPageErr = none <;>
      simp [scrapeGenericRun, scrapeFinallyEvents, h, h2]
  · intro pe be
    obtain ⟨a, b, c, d, e, f, g, h, t, bo, ex, pe0, be0⟩ := env
    rfl

theorem scrape_cleanup_always_runs_witness :
    ScrapeEvent.pageClose none ∈ (scrapeGenericRun "https://example.com" {} {}).2 :=
  (scrape_cleanup_always_runs "https://example.com" {} {}).1 ⟨rfl, rfl⟩

namespace BrowserPool

/-- The initialization loop appends at most one handle per iteration. -/
lemma initLoop_length_le (launchOk : Nat → Bool) (l : List Nat) (s : PoolState) :
    ((l.foldl (initLaunchStep launchOk) s).browsers).length ≤ s.browsers.length + l.length := by
  induction l generalizing s with
  | nil => simp
  | cons x xs ih =>
    simp only [List.foldl_cons, List.length_cons]
    by_cases h : launchOk x
    · rw [show initLaunchStep launchOk s x = { s with browsers := s.browsers ++ [0] } from by
        simp [initLaunchStep, h]]
      have := ih { s with browsers := s.browsers ++ [0] }
      simp only [List.length_append, List.length_cons, List.length_nil] at this
      omega
    · rw [show initLaunchStep launchOk s x = s from by simp [initLaunchStep, h]]
      have := ih s
      omega

/-- The initialization loop does not touch the replenish lock. -/
lemma initLoop_lock_eq (launchOk : Nat → Bool) (l : List Nat) (s : PoolState) :
    (l.foldl (initLaunchStep launchOk) s).replenishLock = s.replenishLock := by
  induction l generalizing s with
  | nil => rfl
  | cons x xs ih =>
    simp only [List.foldl_cons]
    by_cases h : launchOk x
    · rw [show initLaunchStep launchOk s x = { s with browsers := s.browsers ++ [0] } from by
        simp [initLaunchStep, h], ih]
    · rw [show initLaunchStep launchOk s x = s from by simp [initLaunchStep, h], ih]

/-- `initialize()` on the fresh pool establishes the invariant. -/
lemma initPool_inv (launchOk : Nat → Bool) : PoolInv (initPool launchOk freshPoolState) := by
  unfold initPool
  rw [if_neg (by decide : ¬ (freshPoolState.isInitialized = true))]
  constructor
  · show ((List.range POOL_SIZE).foldl (initLaunchStep launchOk) freshPoolState).browsers.length
      ≤ POOL_SIZE
    have h := initLoop_length_le launchOk (List.range POOL_SIZE) freshPoolState
    simpa [freshPoolState, POOL_SIZE] using h
  · intro hlock
    have hl2 : ((List.range POOL_SIZE).foldl (initLaunchStep launchOk)
        freshPoolState).replenishLock = true := hlock
    rw [initLoop_lock_eq] at hl2
    exact absurd hl2 (by decide)

/-- Every interleavable `acquire()` / `replenishPool()` step preserves the
pool-size invariant. -/
lemma poolStep_preserves_inv {s s' : PoolState} (hstep : PoolStep s s') (hinv : PoolInv s) :
    PoolInv s' := by
  obtain ⟨h1, h2⟩ := hinv
  cases hstep with
  | acquireHit b rest h =>
    have hlen : s.browsers.length = rest.length + 1 := by rw [h]; rfl
    refine ⟨?_, ?_⟩
    · show rest.length ≤ POOL_SIZE
      omega
    · intro hl
      show rest.length < POOL_SIZE
      have := h2 hl
      omega
  | emergencyLaunch hb hc => exact ⟨h1, h2⟩
  | replenishBegin hlf hlen => exact ⟨h1, fun _ => hlen⟩
  | replenishSuccess hl =>
    have hlt := h2 hl
    refine ⟨?_, ?_⟩
    · show (s.browsers ++ [0]).length ≤ POOL_SIZE
      simp only [List.length_append, List.length_cons, List.length_nil]
      omega
    · intro hk
      exact (Bool.false_ne_true hk).elim
  | replenishFailure hl =>
    exact ⟨h1, fun hk => (Bool.false_ne_true hk).elim⟩

/-- C1: after `initialize()` the pool holds between `0` and `POOL_SIZE`
handles, and no interleaving of `acquire()` / `replenishPool()` steps can
push it above `POOL_SIZE`: replenishment appends at most one handle, only
after its guard saw the lock clear and the pool below target, and only the
lock holder appends. -/
theorem pool_size_invariant :
    ∀ (launchOk : Nat → Bool) (s : PoolState),
      Relation.ReflTransGen PoolStep (initPool launchOk freshPoolState) s →
      0 ≤ s.browsers.length ∧ s.browsers.length ≤ POOL_SIZE := by
  intro launchOk s h
  have hinv : PoolInv s := by
    induction h with
    | refl => exact initPool_inv launchOk
    | tail _ hstep ih => exact poolStep_preserves_inv hstep ih
  exact ⟨Nat.zero_le _, hinv.1⟩

theorem pool_size_invariant_witness :
    0 ≤ (initPool (fun _ => true) freshPoolState).browsers.length ∧
    (initPool (fun _ => true) freshPoolState).browsers.length ≤ POOL_SIZE :=
  pool_size_invariant (fun _ => true) _ Relation.ReflTransGen.refl

/-- On an empty pool where every emergency launch fails, one `getBrowser`
call produces exactly the attempt/backoff pattern of `failTrace` — each
failed launch is followed by one 250 ms backoff, then either the
exhaustion throw (budget reached) or exactly one retry — ending in the
max-emergency error with the budget used up. -/
lemma getBrowserGo_all_fail (launchOk : Nat → Bool) :
    ∀ (n i : Nat) (s : PoolState), s.browsers = [] → (∀ j, launchOk j = false) →
      s.emergencyCount + n = MAX_EMERGENCY_BROWSERS → 1 ≤ n →
      getBrowserGo launchOk i s =
        (Except.error poolMaxEmergencyMsg,
         { s with emergencyCount := MAX_EMERGENCY_BROWSERS }, failTrace i n) := by
  intro n
  induction n with
  | zero => intro i s _ _ _ h; exact absurd h (by omega)
  | succ n ih =>
    intro i s hb hfail hsum _
    have hM : MAX_EMERGENCY_BROWSERS = 5 := rfl
    unfold getBrowserGo
    rw [hb]
    have hlt : s.emergencyCount < MAX_EMERGENCY_BROWSERS := by omega
    rw [if_pos hlt, hfail i]
    cases n with
    | zero =>
      have hc2 : MAX_EMERGENCY_BROWSERS ≤ s.emergencyCount + 1 := by omega
      have hcnt : s.emergencyCount + 1 = MAX_EMERGENCY_BROWSERS := by omega
      simp only [Bool.false_eq_true, if_false]
      rw [if_pos hc2, hcnt]
      simp [failTrace]
    | succ m =>
      have hc2 : ¬ MAX_EMERGENCY_BROWSERS ≤ s.emergencyCount + 1 := by omega
      have hrec := ih (i + 1) { s with emergencyCount := s.emergencyCount + 1 }
        hb hfail (by simp; omega) (by omega)
      simp only [hb] at hrec
      simp only [Bool.false_eq_true, if_false, if_neg hc2, hrec, failTrace]

/-- C2: on an empty pool, the `getBrowser` emergency path: (1) once
`emergencyCount` has reached the budget the call throws the
pool-exhausted error immediately; (2) a failed emergency launch is
retried exactly once after a 250 ms backoff — a fail-then-succeed oracle
produces exactly one backoff between the two attempts; (3) with every
launch failing, the call performs one launch/backoff pair per remaining
budget unit and then throws; (4) `getBrowser` on an initialized pool is
the recursive body. -/
theorem emergency_retry_and_pool_exhaustion :
    (∀ (launchOk : Nat → Bool) (i : Nat) (s : PoolState), s.browsers = [] →
      MAX_EMERGENCY_BROWSERS ≤ s.emergencyCount →
      getBrowserGo launchOk i s = (Except.error poolExhaustedMsg, s, [])) ∧
    (∀ (launchOk : Nat → Bool) (i : Nat) (s : PoolState), s.browsers = [] →
      s.emergencyCount + 2 ≤ MAX_EMERGENCY_BROWSERS →
      launchOk i = false → launchOk (i + 1) = true →
      getBrowserGo launchOk i s =
        (Except.ok emergencyHandle, { s with emergencyCount := s.emergencyCount + 2 },
         [PoolEvent.launchAttempt i, PoolEvent.backoff 250, PoolEvent.launchAttempt (i + 1)])) ∧
    (∀ (launchOk : Nat → Bool) (i : Nat) (s : PoolState), s.browsers = [] →
      (∀ j, launchOk j = false) → s.emergencyCount < MAX_EMERGENCY_BROWSERS →
      getBrowserGo launchOk i s =
        (Except.error poolMaxEmergencyMsg,
         { s with emergencyCount := MAX_EMERGENCY_BROWSERS },
         failTrace i (MAX_EMERGENCY_BROWSERS - s.emergencyCount))) ∧
    (∀ (initOk launchOk : Nat → Bool) (s : PoolState), s.isInitialized = true →
      getBrowser initOk launchOk s = getBrowserGo launchOk 0 s) := by
  refine ⟨?_, ?_, ?_, ?_⟩
  · intro launchOk i s hb hc
    unfold getBrowserGo
    rw [hb, if_neg (by omega : ¬ s.emergencyCount < MAX_EMERGENCY_BROWSERS)]
  · intro launchOk i s hb hc hf hs
    have hM : MAX_EMERGENCY_BROWSERS = 5 := rfl
    unfold getBrowserGo
    rw [hb, if_pos (by omega : s.emergencyCount < MAX_EMERGENCY_BROWSERS), hf]
    simp only [Bool.false_eq_true, if_false]
    rw [if_neg (by omega : ¬ MAX_EMERGENCY_BROWSERS ≤ s.emergencyCount + 1)]
    unfold getBrowserGo
    rw [if_pos (by omega : s.emergencyCount + 1 < MAX_EMERGENCY_BROWSERS), if_pos hs]
  · intro launchOk i s hb hfail hc
    exact getBrowserGo_all_fail launchOk (MAX_EMERGENCY_BROWSERS - s.emergencyCount) i s
      hb hfail (by omega) (by omega)
  · intro initOk launchOk s h
    simp [getBrowser, h]

theorem emergency_retry_and_pool_exhaustion_witness :
    getBrowserGo (fun _ => false) 0 exhaustedPoolState =
      (Except.error poolExhaustedMsg, exhaustedPoolState, []) :=
  emergency_retry_and_pool_exhaustion.1 (fun _ => false) 0 exhaustedPoolState rfl (by decide)

end BrowserPool

/-- C3 counterexample: the challenge wait is invoked with the fixed list
`['Just a moment']`, not with the caller's own patterns.  A caller whose
only pattern is `"Security check"`, on a page whose title and body still
read `"Security check"`, gets a wait condition that reports the challenge
gone (`true`, stop polling) even though the caller's own pattern is still
present (the claimed condition would be `false`, keep polling); the trace
never contains a wait on the caller's pattern list. -/
theorem challenge_wait_ignores_caller_patterns :
    ScrapeEvent.waitForChallenge ["Just a moment"] 10000 ∈
      (scrapeGenericRun "https://example.com" cfgSecurityCheck envSecurityCheck).2 ∧
    ScrapeEvent.waitForChallenge (claimedWaitPatterns cfSecurityCheck) 10000 ∉
      (scrapeGenericRun "https://example.com" cfgSecurityCheck envSecurityCheck).2 ∧
    challengeWaitDone scrapeChallengeWaitPatterns "Security check" "Security check" = true ∧
    challengeWaitDone (claimedWaitPatterns cfSecurityCheck) "Security check" "Security check"
      = false := by
  decide

/-- C3 (amended): whenever a challenge is detected, `scrapeGeneric` starts
an in-page wait on the FIXED pattern list `['Just a moment']` with a
10000 ms timeout, and that wait condition reports completion exactly when
neither the lowercased title nor the lowercased body contains any pattern
of the list it was given (for the fixed list: the single pattern
`'just a moment'`). -/
theorem challenge_wait_fixed_pattern_flow :
    (∀ (url : String) (config : ScrapeConfig) (det : CloudflareDetection) (env : PageEnv),
      config.cloudflareDetection = some det →
      env.acquireErr = none → env.newPageErr = none → env.setViewportErr = none →
      env.setUserAgentErr = none → env.setHeadersErr = none → env.gotoErr = none →
      env.titleErr = none → env.bodyErr = none →
      detectCloudflareChallenge env.pageTitle env.bodyText det = true →
      ScrapeEvent.waitForChallenge scrapeChallengeWaitPatterns challengeWaitTimeoutMs ∈
        (scrapeGenericRun url config env).2) ∧
    (∀ (patterns : List String) (title bodyText : String),
      challengeWaitDone patterns title bodyText = true ↔
        ∀ p ∈ patterns, strIncludes (jsToLower title) (jsToLower p) = false ∧
          strIncludes (jsToLower bodyText) (jsToLower p) = false) ∧
    scrapeChallengeWaitPatterns = ["Just a moment"] ∧ challengeWaitTimeoutMs = 10000 := by
  refine ⟨?_, ?_, rfl, rfl⟩
  · intro url config det env hdet h1 h2 h3 h4 h5 h6 h7 h8 hchall
    simp only [scrapeGenericRun, scrapeAttempt, h1, h2, h3, h4, h5, h6, h7, h8, hdet, hchall]
    cases hex : env.extractResult <;> simp [hex]
  · intro patterns title bodyText
    simp only [challengeWaitDone, Bool.not_eq_true', List.any_eq_false, Bool.or_eq_false_iff]
    constructor
    · intro h p hp
      have hh := h p hp
      simpa using hh
    · intro h p hp
      have hh := h p hp
      simpa using hh

theorem challenge_wait_fixed_pattern_flow_witness :
    ScrapeEvent.waitForChallenge scrapeChallengeWaitPatterns challengeWaitTimeoutMs ∈
      (scrapeGenericRun "https://example.com" cfgSecurityCheck envSecurityCheck).2 :=
  challenge_wait_fixed_pattern_flow.1 "https://example.com" cfgSecurityCheck cfSecurityCheck
    envSecurityCheck rfl rfl rfl rfl rfl rfl rfl rfl rfl (by decide)

/-! ### Scale-extraction lemmas (C8) -/

lemma fracHere_isSome_eq (t : List Char) : (fracHere t).isSome = fracHereTest t := by
  rcases t with _ | ⟨c1, t⟩
  · rfl
  rcases t with _ | ⟨c2, t⟩
  · rfl
  rcases t with _ | ⟨d, r⟩
  · rfl
  by_cases h : c1 = '1' ∧ c2 = '/' ∧ d.isDigit = true <;> simp [fracHere, fracHereTest, h]

lemma matchFrac_isSome_eq (l : List Char) : (matchFrac l).isSome = fracPresentB l := by
  induction l with
  | nil => rfl
  | cons c rest ih =>
    rw [matchFrac]
    simp only [fracPresentB, List.tails_cons, List.any_cons]
    rw [← fracHere_isSome_eq]
    cases h : fracHere (c :: rest) with
    | some m => simp [h]
    | none => simp only [h, Option.isSome_none, Bool.false_or]; simpa [fracPresentB] using ih

lemma fracHere_some_spec {t m : List Char} (h : fracHere t = some m) :
    ∃ d rest, t = '1' :: '/' :: d :: rest ∧ d.isDigit = true ∧
      m = '1' :: '/' :: d :: rest.takeWhile Char.isDigit := by
  rcases t with _ | ⟨c1, _ | ⟨c2, _ | ⟨d, r⟩⟩⟩
  · simp [fracHere] at h
  · simp [fracHere] at h
  · simp [fracHere] at h
  · simp only [fracHere] at h
    split_ifs at h with hc
    obtain ⟨hc1, hc2, hdig⟩ := hc
    subst hc1; subst hc2
    injection h with h'
    exact ⟨d, r, rfl, hdig, h'.symm⟩

lemma matchFrac_some_spec : ∀ {l m : List Char}, matchFrac l = some m →
    ∃ d ds, m = '1' :: '/' :: d :: ds ∧ d.isDigit = true ∧ ds.all Char.isDigit = true ∧
      m <:+: l := by
  intro l
  induction l with
  | nil => intro m h; simp [matchFrac] at h
  | cons c rest ih =>
    intro m h
    rw [matchFrac] at h
    cases hf : fracHere (c :: rest) with
    | some mf =>
      simp only [hf] at h
      injection h with h'
      obtain ⟨d, r, hshape, hdig, hm⟩ := fracHere_some_spec hf
      refine ⟨d, r.takeWhile Char.isDigit, h' ▸ hm, hdig, ?_, ?_⟩
      · exact List.all_eq_true.mpr (fun x hx => List.mem_takeWhile_imp hx)
      · rw [hshape, ← h', hm]
        refine List.IsPrefix.isInfix ?_
        rw [List.cons_prefix_cons]
        refine ⟨rfl, ?_⟩
        rw [List.cons_prefix_cons]
        refine ⟨rfl, ?_⟩
        rw [List.cons_prefix_cons]
        exact ⟨rfl, List.takeWhile_prefix _⟩
    | none =>
      simp only [hf] at h
      obtain ⟨d, ds, h1, h2, h3, h4⟩ := ih h
      exact ⟨d, ds, h1, h2, h3, List.infix_cons h4⟩

/-- C8 counterexample: the text `"Scale 2/5 figure"` contains the
digit/digit fraction `"2/5"`, yet the extracted scale is the whole trimmed
text, not `"2/5"`: the source regex is `1\/\d+`, whose numerator is the
literal `'1'`, not an arbitrary digit. -/
theorem scale_digit_slash_digit_counterexample :
    strIncludes (jsTrim "Scale 2/5 figure") "2/5" = true ∧
    ('2'.isDigit = true ∧ '5'.isDigit = true) ∧
    scaleFromText "Scale 2/5 figure" = "Scale 2/5 figure" ∧
    ¬ scaleFromText "Scale 2/5 figure" = "2/5" := by
  decide

/-- C8 (amended): when the scale selector matches an element with truthy
text, the extracted scale is the first match of the regex `1\/\d+` in the
trimmed text — the literal `'1'`, a slash, then a maximal nonempty digit
run, an infix of the trimmed text (e.g. `"1/7"` out of
`"Premium Figure 1/7 Scale Complete Figure"`) — and when the regex does
not occur, the raw trimmed text verbatim. -/
theorem scale_extraction_literal_one_fraction :
    (∀ t : String, fracPresentB (jsTrim t).toList = false → scaleFromText t = jsTrim t) ∧
    (∀ t : String, fracPresentB (jsTrim t).toList = true →
      ∃ d ds, (scaleFromText t).toList = '1' :: '/' :: d :: ds ∧ d.isDigit = true ∧
        ds.all Char.isDigit = true ∧ (scaleFromText t).toList <:+: (jsTrim t).toList) ∧
    scaleFromText "Premium Figure 1/7 Scale Complete Figure" = "1/7" ∧
    extractScaleField (some ".item-scale") (some "Premium Figure 1/7 Scale Complete Figure")
      = some "1/7" := by
  refine ⟨?_, ?_, by decide, by decide⟩
  · intro t hp
    cases hmf : matchFrac (jsTrim t).toList with
    | none =>
      have hmfd : matchFrac (jsTrim t).data = none := hmf
      simp [scaleFromText, hmfd]
    | some m =>
      have hiso := matchFrac_isSome_eq (jsTrim t).toList
      rw [hmf, hp] at hiso
      simp at hiso
  · intro t hp
    cases hmf : matchFrac (jsTrim t).toList with
    | none =>
      have hiso := matchFrac_isSome_eq (jsTrim t).toList
      rw [hmf, hp] at hiso
      simp at hiso
    | some m =>
      obtain ⟨d, ds, h1, h2, h3, h4⟩ := matchFrac_some_spec hmf
      have hmfd : matchFrac (jsTrim t).data = some m := hmf
      refine ⟨d, ds, ?_, h2, h3, ?_⟩
      · simp [scaleFromText, hmfd, h1]
      · simpa [scaleFromText, hmfd] using h4

theorem scale_extraction_literal_one_fraction_witness :
    scaleFromText "no fraction here" = jsTrim "no fraction here" :=
  scale_extraction_literal_one_fraction.1 "no fraction here" (by decide)

end PageScraper
